import Mathlib

/-!
Verification development for the contractRead server (`src/server/index.js`).

The server is an Express application with three endpoints:
* `POST /api/query` (lines 58-133): validates the multipart form
  (uploaded `contract` file, `question` text, `sessionId` text), enforces
  the payment gate against the in-memory `paidSessions` object, extracts
  text from the upload (PDF via the external `pdf-parse` library, anything
  else decoded as UTF-8), composes a two-message chat request and forwards
  it to the completion provider, returning the trimmed answer.
* `GET /api/checkout-session` (lines 191-211): retrieves a checkout session
  from the payment provider and, when its `payment_status` is `'paid'`,
  records the session id in `paidSessions`.
* `POST /api/create-checkout-session` (lines 141-185): creates a provider
  checkout session; it never touches `paidSessions`.

The embedding is shallow: external collaborators (the filesystem read, the
PDF parser, the UTF-8 decoder of `Buffer.prototype.toString`, the completion
provider, the payment provider) are oracle fields of an environment record,
and each handler is a pure Lean function of the request, the environment and
the registry state.  JavaScript-specific behaviour that the code relies on is
modelled explicitly: bracket lookup on a plain object literal `{}` consults
the `Object.prototype` chain, and `''`/`undefined` are falsy.
-/

/-- Bytes of a file, as read by `fs.readFileSync` (a Node `Buffer`). -/
abbrev Bytes := List Nat

/-- The own properties of `Object.prototype` (plus the `__proto__` accessor),
all of which are functions or objects and hence truthy.  A bracket read
`({})[k]` for `k` in this list returns a truthy value even though the object
has no own property `k`. -/
def protoProps : List String :=
  ["constructor", "hasOwnProperty", "isPrototypeOf", "propertyIsEnumerable",
   "toLocaleString", "toString", "valueOf", "__defineGetter__",
   "__defineSetter__", "__lookupGetter__", "__lookupSetter__", "__proto__"]

/-- The `paidSessions` object (line 49: `const paidSessions = {};`).
Every own property it ever receives has value `true`
(line 204: `paidSessions[session_id] = true;`), so the state is exactly the
list of own keys. -/
structure JSObj where
  own : List String
deriving DecidableEq

/-- The empty object literal `{}` of line 49. -/
def emptyReg : JSObj := ⟨[]⟩

/-- Truthiness of the bracket read `o[k]` on a plain object whose own values
are all `true`: an own key yields `true`; otherwise the read walks the
prototype chain and finds the truthy members of `Object.prototype` for the
keys in `protoProps`; any other key yields `undefined` (falsy). -/
def jsGet (o : JSObj) (k : String) : Bool :=
  o.own.contains k || protoProps.contains k

/-- The assignment `paidSessions[session_id] = true` of line 204.
Assigning an already-present own key the value it already holds leaves the
object unchanged; assigning through the key `"__proto__"` invokes the
inherited `__proto__` setter, which ignores the non-object value `true` and
creates no own property. -/
def recordPaid (o : JSObj) (k : String) : JSObj :=
  if k == "__proto__" then o
  else if o.own.contains k then o
  else ⟨k :: o.own⟩

/-- The registry lookup used by the query pipeline (spec §4.2
`isSessionPaid`): a pure read of `paidSessions`, no provider call — its type
takes no environment or oracle. -/
def isSessionPaid (reg : JSObj) (sid : String) : Bool :=
  jsGet reg sid

/-- The characters JavaScript `String.prototype.trim` strips: WhiteSpace
(tab, vertical tab, form feed, space, no-break space, BOM) and
LineTerminator (LF, CR, LS, PS). -/
def jsWhitespace (c : Char) : Bool :=
  c == ' ' || c == '\t' || c == '\n' || c == '\r' || c == '\x0b' ||
  c == '\x0c' || c == '\u00A0' || c == '\uFEFF' || c == '\u2028' || c == '\u2029'

/-- JavaScript `s.trim()`: strip `jsWhitespace` from both ends. -/
def jsTrim (s : String) : String :=
  ⟨((s.data.dropWhile jsWhitespace).reverse.dropWhile jsWhitespace).reverse⟩

/-- JavaScript `s.toLowerCase()`, restricted to the simple per-character
lowercase mapping (sufficient here: the result is only ever compared with
the ASCII string `".pdf"`). -/
def jsToLower (s : String) : String :=
  ⟨s.data.map Char.toLower⟩

/-- A multipart form field as multer parses it: a string, or an array of
strings when the field is repeated (truthy, but `typeof q !== 'string'`). -/
inductive QVal where
  | str (s : String)
  | arr (l : List String)
deriving DecidableEq

/-- The validation of lines 65-67:
`!question || typeof question !== 'string' || question.trim().length === 0`.
`undefined` and `''` are falsy; an array is truthy but not a string. -/
def questionBad : Option QVal → Bool
  | none => true
  | some (.arr _) => true
  | some (.str s) => s == "" || (jsTrim s).length == 0

/-- The question string that reaches the prompt template (line 110 uses the
raw, untrimmed `question`). -/
def questionText : Option QVal → String
  | some (.str s) => s
  | _ => ""

/-- Truthiness of an optional string field (`undefined` and `''` falsy). -/
def jsOptStrTruthy : Option String → Bool
  | none => false
  | some s => s != ""

/-- The payment gate of line 72, as the condition for PASSING it:
`!(!sessionId || !paidSessions[sessionId])`. -/
def paymentCheckPasses (reg : JSObj) (sid : Option String) : Bool :=
  jsOptStrTruthy sid && jsGet reg (sid.getD "")

/-- Node `path.extname`, POSIX variant, restricted over `List Char`:
trailing slashes are ignored, the basename is the part after the last
remaining `'/'`, and the extension runs from the basename's last dot —
unless that dot is the basename's first character (a dotfile has no
extension) or the basename is exactly `".."`. -/
def extnameChars (l : List Char) : List Char :=
  let trimmed := (l.reverse.dropWhile (fun c => c == '/')).reverse
  let base := (trimmed.reverse.takeWhile (fun c => c != '/')).reverse
  if base == ['.', '.'] then []
  else
    let dotIdxs := (List.range base.length).filter (fun i => base.getD i ' ' == '.')
    match dotIdxs.getLast? with
    | none => []
    | some i => if i == 0 then [] else base.drop i

/-- `path.extname(file.originalname)` of line 78. -/
def extname (p : String) : String :=
  ⟨extnameChars p.data⟩

/-- One message of the chat request (line 108-111). -/
structure ChatMessage where
  role : String
  content : String
deriving DecidableEq

/-- The argument of `openai.chat.completions.create` (lines 121-126). -/
structure ChatRequest where
  model : String
  messages : List ChatMessage
  temperature : ℚ
  max_tokens : Nat
deriving DecidableEq

/-- `completion.choices[i].message.content`; `message` and `content` are
read through optional chaining, so either may be absent. -/
structure ChatChoiceMessage where
  content : Option String
deriving DecidableEq

/-- One element of `completion.choices`. -/
structure ChatChoice where
  message : Option ChatChoiceMessage
deriving DecidableEq

/-- The provider's completion response; an absent or empty `choices` array
behaves identically under `choices?.[0]`, so both are the empty list. -/
structure Completion where
  choices : List ChatChoice
deriving DecidableEq

/-- Line 127: `completion.choices?.[0]?.message?.content?.trim() || ''`.
The optional chain short-circuits to `undefined` (falsy) at any missing
link, and `'' || ''` is `''`. -/
def extractAnswer (c : Completion) : String :=
  match c.choices.head? with
  | none => ""
  | some ch =>
    match ch.message with
    | none => ""
    | some m =>
      match m.content with
      | none => ""
      | some s => if jsTrim s == "" then "" else jsTrim s

/-- The system prompt of lines 103-106, verbatim. -/
def systemPrompt : String :=
  "You are a knowledgeable legal assistant. Answer the user\x27s questions about the provided contract. " ++
  "Only use information contained in the contract and avoid making assumptions. " ++
  "If the contract does not specify the answer, respond that the information is not available."

/-- The uploaded file as multer hands it to the handler; the temporary copy
on disk and its bytes are modelled in `QueryEnv`. -/
structure UploadedFile where
  originalname : String
deriving DecidableEq

/-- One `POST /api/query` request after multer: the optional uploaded file
and the parsed body fields.  `bodyRest` holds the remaining form fields;
the handler destructures only `question` and `sessionId` (line 60), so any
other field — a client-asserted `paid` flag included — is never read. -/
structure QueryReq where
  file : Option UploadedFile
  question : Option QVal
  sessionId : Option String
  bodyRest : List (String × QVal)

/-- The external collaborators of one `POST /api/query` request:
the result of `fs.readFileSync(file.path)`, the `pdf-parse` library, the
UTF-8 decoder `buffer.toString('utf8')` (total: Node substitutes
replacement characters, it never throws), `process.env.OPENAI_API_KEY`,
and the completion provider. -/
structure QueryEnv where
  readFile : Except Unit Bytes
  pdfParse : Bytes → Except Unit String
  utf8 : Bytes → String
  apiKey : Option String
  complete : ChatRequest → Except Unit Completion

/-- Observable outcome of one `POST /api/query` request: the HTTP status,
the `answer` body field on success, whether the multer temporary file still
exists on disk when the response is sent, whether the upload was read
(extraction work performed), and the chat request submitted to the
completion provider, when one was. -/
structure QueryResult where
  status : Nat
  answer : Option String
  tempFileExists : Bool
  extractionDone : Bool
  chatCall : Option ChatRequest

/-- Lines 77-88 of the handler: choose between the PDF parser and the UTF-8
decode by the lowercased extension of the client-declared filename. -/
def extractText (env : QueryEnv) (originalname : String) (buffer : Bytes) :
    Except Unit String :=
  let ext := jsToLower (extname originalname)
  if ext == ".pdf" then env.pdfParse buffer
  else .ok (env.utf8 buffer)

/-- The `POST /api/query` handler, lines 58-133.  Multer has already written
the temporary file exactly when `req.file` is present, so on the early
`return`s of lines 63, 66 and 73 — which perform no `unlink` — the file is
still on disk.  The handler contains no write to `paidSessions`, so it takes
the registry purely as input.  The catch of lines 89-94 covers the read and
the PDF parse and unlinks before responding 500; line 97 unlinks on the
surviving path. -/
def queryHandler (env : QueryEnv) (reg : JSObj) (req : QueryReq) : QueryResult :=
  match req.file with
  | none => ⟨400, none, false, false, none⟩
  | some file =>
    if questionBad req.question then ⟨400, none, true, false, none⟩
    else if !paymentCheckPasses reg req.sessionId then ⟨402, none, true, false, none⟩
    else
      match env.readFile with
      | .error _ => ⟨500, none, false, true, none⟩
      | .ok buffer =>
        match extractText env file.originalname buffer with
        | .error _ => ⟨500, none, false, true, none⟩
        | .ok contractText =>
          if !jsOptStrTruthy env.apiKey then ⟨500, none, false, true, none⟩
          else
            let cr : ChatRequest :=
              ⟨"gpt-4o",
               [⟨"system", systemPrompt⟩,
                ⟨"user", "Contract:\n\n" ++ contractText ++ "\n\nQuestion: "
                   ++ questionText req.question⟩],
               2/10, 512⟩
            match env.complete cr with
            | .error _ => ⟨500, none, false, true, some cr⟩
            | .ok completion => ⟨200, some (extractAnswer completion), false, true, some cr⟩

/-- The payment provider's view of a checkout session, as read by
`stripe.checkout.sessions.retrieve` (line 200). -/
structure StripeSession where
  payment_status : String
deriving DecidableEq

/-- External collaborators of `GET /api/checkout-session`: whether the
Stripe client was configured (lines 38-43), and the provider's retrieve
call. -/
structure CheckoutEnv where
  stripeConfigured : Bool
  retrieve : String → Except Unit StripeSession

/-- Observable outcome of one `GET /api/checkout-session` request. -/
structure CheckoutResult where
  status : Nat
  paid : Option Bool
  providerCalled : Bool
deriving DecidableEq

/-- The `GET /api/checkout-session` handler, lines 191-211.  It returns the
updated `paidSessions` object alongside the response: the only write is
line 204, guarded by `payment_status === 'paid'`. -/
def checkoutSessionHandler (env : CheckoutEnv) (session_id : Option String)
    (reg : JSObj) : CheckoutResult × JSObj :=
  if !env.stripeConfigured then (⟨500, none, false⟩, reg)
  else if !jsOptStrTruthy session_id then (⟨400, none, false⟩, reg)
  else
    match env.retrieve (session_id.getD "") with
    | .error _ => (⟨500, none, true⟩, reg)
    | .ok session =>
      if session.payment_status == "paid" then
        (⟨200, some true, true⟩, recordPaid reg (session_id.getD ""))
      else (⟨200, some false, true⟩, reg)

/-- One server operation touching (or, for the query and create-checkout
handlers, provably not touching) the `paidSessions` registry.  The
`POST /api/query` handler (lines 58-133) and the
`POST /api/create-checkout-session` handler (lines 141-185) contain no
reference that writes `paidSessions`, so they leave the registry as is. -/
inductive ServerOp where
  | query (env : QueryEnv) (req : QueryReq)
  | checkout (env : CheckoutEnv) (sid : Option String)
  | createCheckout

/-- Effect of one server operation on the registry. -/
def applyOp (reg : JSObj) : ServerOp → JSObj
  | .query _ _ => reg
  | .checkout env sid => (checkoutSessionHandler env sid reg).snd
  | .createCheckout => reg

/-- Registry after a sequence of server operations. -/
def applyOps (reg : JSObj) (ops : List ServerOp) : JSObj :=
  ops.foldl applyOp reg

/-! ### Concrete fixtures used by witnesses and counterexamples -/

/-- Bytes of a small plain-text upload. -/
def exBytes : Bytes := [84, 101, 114, 109]

/-- An environment where every external collaborator succeeds. -/
def exEnv : QueryEnv where
  readFile := .ok exBytes
  pdfParse := fun _ => .ok "PDF TEXT"
  utf8 := fun _ => "Term: 12 months"
  apiKey := some "sk-test"
  complete := fun _ => .ok ⟨[⟨some ⟨some "  12 months  "⟩⟩]⟩

/-- Like `exEnv` but `process.env.OPENAI_API_KEY` is unset. -/
def exEnvNoKey : QueryEnv where
  readFile := .ok exBytes
  pdfParse := fun _ => .ok "PDF TEXT"
  utf8 := fun _ => "Term: 12 months"
  apiKey := none
  complete := fun _ => .ok ⟨[⟨some ⟨some "  12 months  "⟩⟩]⟩

/-- Like `exEnv` but the PDF parser rejects the bytes. -/
def exEnvBadPdf : QueryEnv where
  readFile := .ok exBytes
  pdfParse := fun _ => .error ()
  utf8 := fun _ => "Term: 12 months"
  apiKey := some "sk-test"
  complete := fun _ => .ok ⟨[⟨some ⟨some "  12 months  "⟩⟩]⟩

/-- A plain-text upload. -/
def exFileTxt : UploadedFile := ⟨"contract.txt"⟩

/-- An upload whose declared name carries an upper-case PDF extension. -/
def exFilePdf : UploadedFile := ⟨"contract.PDF"⟩

/-- A registry in which exactly the session `"cs_123"` was recorded paid. -/
def regPaid : JSObj := ⟨["cs_123"]⟩

/-- A well-formed request referencing the recorded session. -/
def reqGood : QueryReq := ⟨some exFileTxt, some (.str "What is the term?"), some "cs_123", []⟩

/-- The same request with no sessionId field. -/
def reqNoSid : QueryReq := ⟨some exFileTxt, some (.str "What is the term?"), none, []⟩

/-- The same request with the never-recorded sessionId `"constructor"`. -/
def reqCtor : QueryReq := ⟨some exFileTxt, some (.str "What is the term?"), some "constructor", []⟩

/-- A request whose question is whitespace only. -/
def reqBlankQ : QueryReq := ⟨some exFileTxt, some (.str "   "), some "cs_123", []⟩

/-- A well-formed request uploading the PDF-named file. -/
def reqPdf : QueryReq := ⟨some exFilePdf, some (.str "What is the term?"), some "cs_123", []⟩

/-- A checkout environment whose provider reports every session paid. -/
def exCk : CheckoutEnv := ⟨true, fun _ => .ok ⟨"paid"⟩⟩

/-! ### Helper lemmas -/

/-- A question that survives the validation of lines 65-67 is a string. -/
theorem questionText_of_not_bad (q : Option QVal) (h : questionBad q = false) :
    ∃ s, q = some (QVal.str s) ∧ questionText q = s := by
  cases q with
  | none => simp [questionBad] at h
  | some v =>
    cases v with
    | str s => exact ⟨s, rfl, rfl⟩
    | arr l => simp [questionBad] at h

/-- Looking up a key right after recording it succeeds (for `"__proto__"`
the recording is a no-op but the inherited accessor is itself truthy). -/
theorem jsGet_recordPaid_self (o : JSObj) (k : String) :
    jsGet (recordPaid o k) k = true := by
  unfold recordPaid
  split
  · next hp =>
    have hk : k = "__proto__" := by simpa using hp
    subst hk
    have h2 : ("__proto__" ∈ protoProps) := by decide
    simp [jsGet, h2]
  · split
    · next hc =>
      have hm : k ∈ o.own := by simpa using hc
      simp [jsGet, hm]
    · show jsGet ⟨k :: o.own⟩ k = true
      simp [jsGet, List.contains_cons]

/-- Recording one key never hides another: bracket-lookup truthiness is
monotone under `recordPaid`. -/
theorem jsGet_mono_recordPaid (o : JSObj) (s k : String)
    (h : jsGet o k = true) : jsGet (recordPaid o s) k = true := by
  unfold recordPaid
  split
  · exact h
  · split
    · exact h
    · unfold jsGet at h ⊢
      rcases Bool.or_eq_true_iff.mp h with h' | h'
      · have hm : k ∈ o.own := by simpa using h'
        simp [List.contains_cons, hm]
      · have hm : k ∈ protoProps := by simpa using h'
        simp [hm]

/-- The checkout handler only ever grows the registry. -/
theorem jsGet_mono_checkout (env : CheckoutEnv) (sid : Option String)
    (reg : JSObj) (k : String) (h : jsGet reg k = true) :
    jsGet (checkoutSessionHandler env sid reg).snd k = true := by
  unfold checkoutSessionHandler
  split
  · exact h
  · split
    · exact h
    · split
      · exact h
      · split
        · exact jsGet_mono_recordPaid _ _ _ h
        · exact h

/-- No server operation removes a key from the registry. -/
theorem jsGet_mono_applyOp (r : JSObj) (op : ServerOp) (k : String)
    (h : jsGet r k = true) : jsGet (applyOp r op) k = true := by
  cases op with
  | query env req => exact h
  | checkout env sid => exact jsGet_mono_checkout env sid r k h
  | createCheckout => exact h

/-- No sequence of server operations removes a key from the registry. -/
theorem jsGet_mono_applyOps (ops : List ServerOp) (r : JSObj) (k : String)
    (h : jsGet r k = true) : jsGet (applyOps r ops) k = true := by
  induction ops generalizing r with
  | nil => exact h
  | cons op rest ih => exact ih _ (jsGet_mono_applyOp r op k h)

/-- When the checkout handler reports `{paid: true}`, the registry it leaves
behind is exactly the input registry with the session recorded. -/
theorem checkout_paid_snd (env : CheckoutEnv) (sid : Option String) (reg : JSObj)
    (h : (checkoutSessionHandler env sid reg).fst.paid = some true) :
    (checkoutSessionHandler env sid reg).snd = recordPaid reg (sid.getD "") := by
  unfold checkoutSessionHandler at h ⊢
  rcases hc : env.stripeConfigured with _ | _
  · simp [hc] at h
  · rcases hs : jsOptStrTruthy sid with _ | _
    · simp [hc, hs] at h
    · rcases hr : env.retrieve (sid.getD "") with _ | session
      · simp [hc, hs, hr] at h
      · by_cases hp : session.payment_status = "paid"
        · simp [hc, hs, hr, hp]
        · simp [hc, hs, hr, hp] at h

/-! ### Claims -/

/-- C1 (counterexample). The claim says that whether `POST /api/query` ends
in success or in any failure response (400, 402 or 500), the temporary file
written for the upload no longer exists when the response is sent.  It is
false: a request carrying an uploaded file and a valid question but no
sessionId is answered 402 through the early `return` of line 73, which is
reached before any `unlink`, so the temporary file multer wrote is still on
disk. -/
theorem c1_upload_cleanup_counterexample :
    (queryHandler exEnv emptyReg reqNoSid).status = 402 ∧
    (queryHandler exEnv emptyReg reqNoSid).tempFileExists = true := by
  decide

/-- C1 (amended). The unlink calls of lines 92 and 97 sit on the extraction
paths only: after any `/api/query` call that proceeds past the payment check
— exactly the calls answered 200 or 500 — the temporary file no longer
exists on disk; the early 400/402 rejections delete nothing. -/
theorem c1_upload_cleanup_amended (env : QueryEnv) (reg : JSObj) (req : QueryReq)
    (h : (queryHandler env reg req).status = 200 ∨ (queryHandler env reg req).status = 500) :
    (queryHandler env reg req).tempFileExists = false := by
  unfold queryHandler at h ⊢
  rcases hf : req.file with _ | f <;> simp [hf] at h ⊢
  rcases hq : questionBad req.question with _ | _ <;> simp [hq] at h ⊢
  · rcases hp : paymentCheckPasses reg req.sessionId with _ | _ <;> simp [hp] at h ⊢
    rcases hr : env.readFile with _ | buf <;> simp [hr] at h ⊢
    rcases he : extractText env f.originalname buf with _ | ct <;> simp [he] at h ⊢
    rcases hk : jsOptStrTruthy env.apiKey with _ | _ <;> simp [hk] at h ⊢
    split <;> simp

/-- C1 (witness for the amended theorem): a fully successful call answers
200 and leaves no temporary file. -/
theorem c1_upload_cleanup_witness :
    (queryHandler exEnv regPaid reqGood).tempFileExists = false :=
  c1_upload_cleanup_amended exEnv regPaid reqGood (Or.inl (by decide))

/-- C2 (code-bug evaluation). The claim — a request whose sessionId is
absent from the Paid-Session Registry gets 402 and triggers neither
extraction nor the completion call — is the intent of the payment gate, but
line 72 reads `paidSessions[sessionId]` with an unguarded bracket lookup on
a plain object literal: the sessionId `"constructor"`, never recorded in
the registry, resolves through the prototype chain to the truthy
`Object.prototype.constructor`, so the gate passes, the upload is read and
the completion call is made, and the request is answered 200. -/
theorem c2_payment_gate_bypass :
    ((queryHandler exEnv emptyReg reqCtor).status = 200 ∧
     (queryHandler exEnv emptyReg reqCtor).extractionDone = true ∧
     (queryHandler exEnv emptyReg reqCtor).chatCall.isSome = true) ∧
    emptyReg.own.contains "constructor" = false := by
  decide

/-- C3. Once a `GET /api/checkout-session` call observes payment status
`'paid'` for a session identifier, the identifier stays paid in the
registry for the remainder of the process lifetime: after any further
sequence of server operations the registry lookup (`isSessionPaid`, a pure
function with no provider oracle in its type) still returns `true`, and no
server operation ever removes an identifier from the registry. -/
theorem c3_paid_persists (env : CheckoutEnv) (s : String) (reg : JSObj)
    (h : (checkoutSessionHandler env (some s) reg).fst.paid = some true) :
    (∀ ops : List ServerOp,
        isSessionPaid (applyOps (checkoutSessionHandler env (some s) reg).snd ops) s = true) ∧
    (∀ (r : JSObj) (op : ServerOp) (k : String),
        isSessionPaid r k = true → isSessionPaid (applyOp r op) k = true) := by
  constructor
  · intro ops
    have hsnd := checkout_paid_snd env (some s) reg h
    rw [hsnd]
    exact jsGet_mono_applyOps ops _ s (jsGet_recordPaid_self reg s)
  · intro r op k hk
    exact jsGet_mono_applyOp r op k hk

/-- C3 (witness): verify `"cs_123"` as paid against an empty registry, then
run three more server operations; the lookup still answers `true`. -/
theorem c3_paid_persists_witness :
    isSessionPaid
      (applyOps (checkoutSessionHandler exCk (some "cs_123") emptyReg).snd
        [ServerOp.checkout exCk (some "cs_other"), ServerOp.createCheckout,
         ServerOp.query exEnv reqGood]) "cs_123" = true :=
  (c3_paid_persists exCk "cs_123" emptyReg (by decide)).1 _

/-- C4. A request with no attached file, and a request whose question is
missing, non-textual or blank after trimming, are both rejected 400 by the
checks of lines 62-67; these checks run before the payment gate and before
any extraction work: the outcome carries no extraction and no completion
call, and is independent of the registry and of every external
collaborator. -/
theorem c4_validation_first (env env' : QueryEnv) (reg reg' : JSObj) (req : QueryReq)
    (h : req.file = none ∨ questionBad req.question = true) :
    (queryHandler env reg req).status = 400 ∧
    (queryHandler env reg req).extractionDone = false ∧
    (queryHandler env reg req).chatCall = none ∧
    queryHandler env reg req = queryHandler env' reg' req := by
  rcases h with h | h
  · simp [queryHandler, h]
  · rcases hf : req.file with _ | f
    · simp [queryHandler, hf]
    · simp [queryHandler, hf, h]

/-- C4 (witness): with a valid paid sessionId, a whitespace-only question is
rejected 400 regardless of the registry. -/
theorem c4_validation_first_witness :
    (queryHandler exEnv regPaid reqBlankQ).status = 400 ∧
    (queryHandler exEnv regPaid reqBlankQ).extractionDone = false ∧
    (queryHandler exEnv regPaid reqBlankQ).chatCall = none ∧
    queryHandler exEnv regPaid reqBlankQ = queryHandler exEnvNoKey emptyReg reqBlankQ :=
  c4_validation_first exEnv exEnvNoKey regPaid emptyReg reqBlankQ (Or.inr (by decide))

/-- Whenever the query handler submits a chat request, that request is the
one built on lines 103-126 from the extracted contract text and the raw
question. -/
theorem queryHandler_chatCall_eq (env : QueryEnv) (reg : JSObj) (req : QueryReq)
    (cr : ChatRequest) (h : (queryHandler env reg req).chatCall = some cr) :
    ∃ f buf contractText, req.file = some f ∧ questionBad req.question = false ∧
      paymentCheckPasses reg req.sessionId = true ∧
      env.readFile = .ok buf ∧
      extractText env f.originalname buf = .ok contractText ∧
      jsOptStrTruthy env.apiKey = true ∧
      cr = ⟨"gpt-4o",
            [⟨"system", systemPrompt⟩,
             ⟨"user", "Contract:\n\n" ++ contractText ++ "\n\nQuestion: "
                ++ questionText req.question⟩],
            2/10, 512⟩ := by
  unfold queryHandler at h
  rcases hf : req.file with _ | f
  · simp [hf] at h
  · simp only [hf] at h
    rcases hq : questionBad req.question with _ | _
    · simp only [hq, Bool.false_eq_true, if_false] at h
      rcases hp : paymentCheckPasses reg req.sessionId with _ | _
      · simp [hp] at h
      · simp only [hp, Bool.not_true, Bool.false_eq_true, if_false] at h
        rcases hr : env.readFile with _ | buf
        · simp [hr] at h
        · simp only [hr] at h
          rcases he : extractText env f.originalname buf with _ | ct
          · simp [he] at h
          · simp only [he] at h
            rcases hk : jsOptStrTruthy env.apiKey with _ | _
            · simp [hk] at h
            · simp only [hk, Bool.not_true, Bool.false_eq_true, if_false] at h
              split at h <;> simp only [Option.some.injEq] at h <;>
                exact ⟨f, buf, ct, rfl, rfl, rfl, rfl, he, rfl, h.symm⟩
    · simp [hq] at h

/-- C6. Every chat request the handler submits has exactly the two messages
of lines 108-111 — the fixed system instruction and the user message built
by the literal template from the extracted contract text and the question —
together with the fixed model identifier `gpt-4o`, temperature 0.2 and
`max_tokens` 512 of lines 121-126. -/
theorem c6_chat_request_shape (env : QueryEnv) (reg : JSObj) (req : QueryReq)
    (cr : ChatRequest) (h : (queryHandler env reg req).chatCall = some cr) :
    cr.model = "gpt-4o" ∧ cr.temperature = 2/10 ∧ cr.max_tokens = 512 ∧
    ∃ (f : UploadedFile) (buf : Bytes) (contractText q : String),
      req.file = some f ∧ env.readFile = .ok buf ∧
      extractText env f.originalname buf = .ok contractText ∧
      req.question = some (QVal.str q) ∧
      cr.messages =
        [⟨"system", systemPrompt⟩,
         ⟨"user", "Contract:\n\n" ++ contractText ++ "\n\nQuestion: " ++ q⟩] := by
  obtain ⟨f, buf, ct, hf, hq, hp, hr, he, hk, hcr⟩ := queryHandler_chatCall_eq env reg req cr h
  obtain ⟨q, hqe, hqt⟩ := questionText_of_not_bad req.question hq
  subst hcr
  exact ⟨rfl, rfl, rfl, f, buf, ct, q, hf, hr, he, hqe, by rw [hqt]⟩

/-- The chat request submitted for the fully successful example request. -/
def exChatReq : ChatRequest :=
  ⟨"gpt-4o",
   [⟨"system", systemPrompt⟩,
    ⟨"user", "Contract:\n\nTerm: 12 months\n\nQuestion: What is the term?"⟩],
   2/10, 512⟩

set_option maxRecDepth 100000 in
/-- C6 (witness): the successful example run submits exactly that request. -/
theorem c6_chat_request_shape_witness :
    exChatReq.model = "gpt-4o" ∧ exChatReq.temperature = 2/10 ∧
    exChatReq.max_tokens = 512 ∧
    ∃ (f : UploadedFile) (buf : Bytes) (contractText q : String),
      reqGood.file = some f ∧ exEnv.readFile = .ok buf ∧
      extractText exEnv f.originalname buf = .ok contractText ∧
      reqGood.question = some (QVal.str q) ∧
      exChatReq.messages =
        [⟨"system", systemPrompt⟩,
         ⟨"user", "Contract:\n\n" ++ contractText ++ "\n\nQuestion: " ++ q⟩] :=
  c6_chat_request_shape exEnv regPaid reqGood exChatReq (by rfl)

/-- A 200 response comes from a successful completion call, and its `answer`
body is the extraction of line 127 applied to the provider's response. -/
theorem queryHandler_status200 (env : QueryEnv) (reg : JSObj) (req : QueryReq)
    (h : (queryHandler env reg req).status = 200) :
    ∃ cr comp, (queryHandler env reg req).chatCall = some cr ∧
      env.complete cr = .ok comp ∧
      (queryHandler env reg req).answer = some (extractAnswer comp) := by
  unfold queryHandler at h ⊢
  rcases hf : req.file with _ | f
  · simp [hf] at h
  · simp only [hf] at h
    rcases hq : questionBad req.question with _ | _
    · simp only [hq, Bool.false_eq_true, if_false] at h ⊢
      rcases hp : paymentCheckPasses reg req.sessionId with _ | _
      · simp [hp] at h
      · simp only [hp, Bool.not_true, Bool.false_eq_true, if_false] at h ⊢
        rcases hr : env.readFile with _ | buf
        · simp [hr] at h
        · simp only [hr] at h ⊢
          rcases he : extractText env f.originalname buf with _ | ct
          · simp [he] at h
          · simp only [he] at h ⊢
            rcases hk : jsOptStrTruthy env.apiKey with _ | _
            · simp [hk] at h
            · simp only [hk, Bool.not_true, Bool.false_eq_true, if_false] at h ⊢
              split at h
              · simp at h
              · next comp heq =>
                simp only [heq]
                exact ⟨_, comp, rfl, heq, rfl⟩
    · simp [hq] at h

/-- Like `exEnv` but the completion provider returns no choices. -/
def exEnvNoChoices : QueryEnv where
  readFile := .ok exBytes
  pdfParse := fun _ => .ok "PDF TEXT"
  utf8 := fun _ => "Term: 12 months"
  apiKey := some "sk-test"
  complete := fun _ => .ok ⟨[]⟩

/-- C7. Whenever the completion call of lines 121-126 is made and succeeds,
`POST /api/query` answers 200 — never an error — with `answer` equal to the
extraction of line 127 applied to the provider's response: the first
completion's text trimmed of leading and trailing whitespace, and the empty
string when the response has no choices, a missing message, or missing or
whitespace-only content.  Conversely every 200 response arises from a
successful completion call this way. -/
theorem c7_answer_extraction :
    (∀ (env : QueryEnv) (reg : JSObj) (req : QueryReq) (cr : ChatRequest)
       (comp : Completion),
       (queryHandler env reg req).chatCall = some cr →
       env.complete cr = .ok comp →
       (queryHandler env reg req).status = 200 ∧
       (queryHandler env reg req).answer = some (extractAnswer comp)) ∧
    (∀ (env : QueryEnv) (reg : JSObj) (req : QueryReq),
       (queryHandler env reg req).status = 200 →
       ∃ cr comp, (queryHandler env reg req).chatCall = some cr ∧
         env.complete cr = .ok comp ∧
         (queryHandler env reg req).answer = some (extractAnswer comp)) ∧
    (∀ comp : Completion, comp.choices = [] → extractAnswer comp = "") ∧
    (∀ s : String, extractAnswer ⟨[⟨some ⟨some s⟩⟩]⟩ = jsTrim s) ∧
    extractAnswer ⟨[⟨some ⟨none⟩⟩]⟩ = "" ∧
    extractAnswer ⟨[⟨none⟩]⟩ = "" := by
  refine ⟨?_, queryHandler_status200, ?_, ?_, rfl, rfl⟩
  · intro env reg req cr comp hcall hcomp
    obtain ⟨f, buf, ct, hf, hq, hp, hr, he, hk, hcr⟩ :=
      queryHandler_chatCall_eq env reg req cr hcall
    subst hcr
    unfold queryHandler
    simp [hf, hq, hp, hr, he, hk, hcomp]
  · intro comp hc
    simp [extractAnswer, hc]
  · intro s
    by_cases h : jsTrim s = ""
    · simp [extractAnswer, h]
    · simp [extractAnswer, h]

set_option maxRecDepth 100000 in
/-- C7 (witness): a run whose provider answers the completion call with an
empty `choices` array still gets a 200, whose `answer` is the empty
string. -/
theorem c7_answer_extraction_witness :
    (queryHandler exEnvNoChoices regPaid reqGood).status = 200 ∧
    (queryHandler exEnvNoChoices regPaid reqGood).answer = some "" :=
  c7_answer_extraction.1 exEnvNoChoices regPaid reqGood exChatReq ⟨[]⟩ (by rfl) rfl

/-- The assignment of line 204 is a no-op when the key is already an own
property of `paidSessions` (and when the key is `"__proto__"`). -/
theorem recordPaid_idem (o : JSObj) (k : String) :
    recordPaid (recordPaid o k) k = recordPaid o k := by
  rcases h1 : k == "__proto__" with _ | _
  · rcases h2 : o.own.contains k with _ | _
    · have h2m : k ∉ o.own := by simpa using h2
      have h3 : k ∈ k :: o.own := List.mem_cons_self k o.own
      simp [recordPaid, h1, h2, h2m, h3]
    · have h2m : k ∈ o.own := by simpa using h2
      simp [recordPaid, h1, h2, h2m]
  · simp [recordPaid, h1]

/-- C8. Running `GET /api/checkout-session` twice with the same session
identifier against the same provider leaves the Paid-Session Registry in
exactly the state one run leaves it in — in particular, re-verifying an
already-paid identifier re-records it as a no-op. -/
theorem c8_verify_idempotent (env : CheckoutEnv) (sid : Option String) (reg : JSObj) :
    (checkoutSessionHandler env sid ((checkoutSessionHandler env sid reg).snd)).snd =
      (checkoutSessionHandler env sid reg).snd := by
  unfold checkoutSessionHandler
  rcases hc : env.stripeConfigured with _ | _
  · simp [hc]
  · rcases hs : jsOptStrTruthy sid with _ | _
    · simp [hc, hs]
    · rcases hr : env.retrieve (sid.getD "") with _ | session
      · simp [hc, hs, hr]
      · by_cases hp : session.payment_status = "paid"
        · simp [hc, hs, hr, hp, recordPaid_idem]
        · simp [hc, hs, hr, hp]

/-- C5. `extractText` dispatches on the lowercased extension of the declared
filename alone: a `.pdf` extension (compared case-insensitively) routes the
bytes to the PDF parser, any other extension returns the UTF-8 decode of the
bytes unchanged, and a PDF parse failure surfaces as the extraction error
that makes the handler answer 500 (deleting the temporary upload). -/
theorem c5_extract_dispatch (env : QueryEnv) (name : String) (buf : Bytes) :
    (jsToLower (extname name) = ".pdf" → extractText env name buf = env.pdfParse buf) ∧
    (jsToLower (extname name) ≠ ".pdf" → extractText env name buf = .ok (env.utf8 buf)) ∧
    (∀ (reg : JSObj) (req : QueryReq) (f : UploadedFile),
      req.file = some f → questionBad req.question = false →
      paymentCheckPasses reg req.sessionId = true →
      env.readFile = .ok buf →
      extractText env f.originalname buf = .error () →
      (queryHandler env reg req).status = 500 ∧
      (queryHandler env reg req).tempFileExists = false) := by
  refine ⟨?_, ?_, ?_⟩
  · intro h
    simp [extractText, h]
  · intro h
    have hb : (jsToLower (extname name) == ".pdf") = false := by
      simpa using h
    simp [extractText, hb]
  · intro reg req f hf hq hp hr he
    unfold queryHandler
    simp [hf, hq, hp, hr, he]

/-- C5 (witness): an upper-case `.PDF` name routes to the PDF parser, a
`.txt` name returns the UTF-8 decode unchanged, and a run whose PDF parse
fails answers 500 with the temporary file removed. -/
theorem c5_extract_dispatch_witness :
    (extractText exEnv "contract.PDF" exBytes = exEnv.pdfParse exBytes) ∧
    (extractText exEnv "contract.txt" exBytes = .ok (exEnv.utf8 exBytes)) ∧
    ((queryHandler exEnvBadPdf regPaid reqPdf).status = 500 ∧
     (queryHandler exEnvBadPdf regPaid reqPdf).tempFileExists = false) :=
  ⟨(c5_extract_dispatch exEnv "contract.PDF" exBytes).1 (by decide),
   (c5_extract_dispatch exEnv "contract.txt" exBytes).2.1 (by decide),
   (c5_extract_dispatch exEnvBadPdf "contract.PDF" exBytes).2.2 regPaid reqPdf
     exFilePdf rfl (by decide) (by decide) rfl (by rfl)⟩

/-- With validation passed, the handler answers 402 exactly when the payment
gate of line 72 fails; no later branch produces a 402. -/
theorem queryHandler_status402_iff (env : QueryEnv) (reg : JSObj) (req : QueryReq)
    (f : UploadedFile) (hf : req.file = some f)
    (hq : questionBad req.question = false) :
    ((queryHandler env reg req).status = 402 ↔
      paymentCheckPasses reg req.sessionId = false) := by
  unfold queryHandler
  rcases hp : paymentCheckPasses reg req.sessionId with _ | _
  · simp [hf, hq, hp]
  · simp only [hf, hq, hp, Bool.not_true, Bool.false_eq_true, if_false]
    rcases hr : env.readFile with _ | buf
    · simp [hr]
    · simp only [hr]
      rcases he : extractText env f.originalname buf with _ | ct
      · simp [he]
      · simp only [he]
        rcases hk : jsOptStrTruthy env.apiKey with _ | _
        · simp [hk]
        · simp only [hk, Bool.not_true, Bool.false_eq_true, if_false]
          split <;> simp

/-- C9. The 402-versus-pass outcome of the payment check depends only on the
client-supplied sessionId and the server-side registry: two validated
requests carrying the same sessionId — whatever their file, question, any
other form field (a client-asserted `paid` flag included, since the handler
destructures only `question` and `sessionId`), and whatever the external
collaborators do — agree on whether the response is 402. -/
theorem c9_payment_outcome_uniform (env1 env2 : QueryEnv) (reg : JSObj)
    (r1 r2 : QueryReq) (f1 f2 : UploadedFile)
    (hs : r1.sessionId = r2.sessionId)
    (hf1 : r1.file = some f1) (hf2 : r2.file = some f2)
    (hq1 : questionBad r1.question = false) (hq2 : questionBad r2.question = false) :
    ((queryHandler env1 reg r1).status = 402 ↔
     (queryHandler env2 reg r2).status = 402) := by
  rw [queryHandler_status402_iff env1 reg r1 f1 hf1 hq1,
    queryHandler_status402_iff env2 reg r2 f2 hf2 hq2, hs]

/-- A second validated request with the same sessionId as `reqGood` but a
different file, question, environment, and a client-asserted paid flag in
the remaining form fields. -/
def reqOther : QueryReq :=
  ⟨some exFilePdf, some (.str "Who are the parties?"), some "cs_123",
   [("paid", QVal.str "true")]⟩

/-- C9 (witness): the two example requests agree on the 402 outcome. -/
theorem c9_payment_outcome_uniform_witness :
    ((queryHandler exEnv regPaid reqGood).status = 402 ↔
     (queryHandler exEnvNoKey regPaid reqOther).status = 402) :=
  c9_payment_outcome_uniform exEnv exEnvNoKey regPaid reqGood reqOther
    exFileTxt exFilePdf rfl rfl rfl (by decide) (by decide)

/-- C10. For every request that passes validation and the payment check, the
upload is read and its temporary copy deleted before the
missing-model-credential check of lines 114-117 runs: such a request always
has extraction work done and no temporary file left, and when the
credential is absent (and extraction succeeded) the handler answers the 500
configuration error without any completion call. -/
theorem c10_config_check_after_cleanup (env : QueryEnv) (reg : JSObj)
    (req : QueryReq) (f : UploadedFile) (hf : req.file = some f)
    (hq : questionBad req.question = false)
    (hp : paymentCheckPasses reg req.sessionId = true) :
    ((queryHandler env reg req).extractionDone = true ∧
     (queryHandler env reg req).tempFileExists = false) ∧
    (∀ (buf : Bytes) (ct : String), env.readFile = .ok buf →
      extractText env f.originalname buf = .ok ct →
      jsOptStrTruthy env.apiKey = false →
      (queryHandler env reg req).status = 500 ∧
      (queryHandler env reg req).chatCall = none) := by
  constructor
  · unfold queryHandler
    simp only [hf, hq, hp, Bool.not_true, Bool.false_eq_true, if_false]
    rcases hr : env.readFile with _ | buf
    · simp [hr]
    · simp only [hr]
      rcases he : extractText env f.originalname buf with _ | ct
      · simp [he]
      · simp only [he]
        rcases hk : jsOptStrTruthy env.apiKey with _ | _
        · simp [hk]
        · simp only [hk, Bool.not_true, Bool.false_eq_true, if_false]
          split <;> simp
  · intro buf ct hr he hk
    unfold queryHandler
    simp [hf, hq, hp, hr, he, hk]

/-- C10 (witness): the example request against the no-credential environment
is read, cleaned up, and answered 500 with no completion call. -/
theorem c10_config_check_after_cleanup_witness :
    ((queryHandler exEnvNoKey regPaid reqGood).extractionDone = true ∧
     (queryHandler exEnvNoKey regPaid reqGood).tempFileExists = false) ∧
    ((queryHandler exEnvNoKey regPaid reqGood).status = 500 ∧
     (queryHandler exEnvNoKey regPaid reqGood).chatCall = none) :=
  ⟨(c10_config_check_after_cleanup exEnvNoKey regPaid reqGood exFileTxt rfl
      (by decide) (by decide)).1,
   (c10_config_check_after_cleanup exEnvNoKey regPaid reqGood exFileTxt rfl
      (by decide) (by decide)).2 exBytes "Term: 12 months" rfl (by rfl) rfl⟩
